import Mathlib

set_option maxRecDepth 100000
set_option maxHeartbeats 1000000

/-!
Verification development for the ConvTexture GPU convolution kernel
generator and controller
(tensorflow/lite/delegates/gpu/cl/kernels/conv_texture.cc).

The data model and the operations are shallowly embedded: machine `int`
values become `Int` (or `Nat` where the code only ever holds positive
counts, such as block sizes and tensor extents), the emitted OpenCL text
becomes a Lean `String` built by the same sequence of appends as the C++
code, and the stateful argument binding of `CLKernel` becomes explicit
state passing.  Helper routines that live outside the excerpted file
(util.h, tensor_type.h, linear_storage.h) are modelled from the spec and
marked as such in their doc comments.
-/

/-- Element precision modes of the calculation (enum
`CalculationsPrecision` from precision.h): pure single precision, pure
half precision, and the mixed mode that stores in half but accumulates in
single precision. -/
inductive CalculationsPrecision
  | F32
  | F16
  | F32_F16
  deriving DecidableEq, Repr

/-- Tensor storage kinds (enum `TensorStorageType` from tensor_type.h);
the generator only distinguishes `IMAGE_BUFFER` from the rest, and the
Adreno-4xx fast path additionally tests for `TEXTURE_ARRAY`. -/
inductive TensorStorageType
  | BUFFER
  | IMAGE_BUFFER
  | TEXTURE_2D
  | TEXTURE_3D
  | TEXTURE_ARRAY
  | SINGLE_TEXTURE_2D
  deriving DecidableEq, Repr

/-- Access direction of a kernel tensor argument (enum `AccessType`). -/
inductive AccessType
  | READ
  | WRITE
  deriving DecidableEq, Repr

/-- Texture out-of-bounds addressing mode (enum `TextureAddressMode` from
util.h, used by `GetFastestZeroMode`). -/
inductive TextureAddressMode
  | DONT_CARE
  | ZERO
  deriving DecidableEq, Repr

/-- Pair of machine ints (`int2`). -/
structure Int2 where
  x : Int
  y : Int
  deriving DecidableEq, Repr

/-- Quadruple of machine ints (`int4`). -/
structure Int4 where
  x : Int
  y : Int
  z : Int
  w : Int
  deriving DecidableEq, Repr

/-- Triple of non-negative machine ints; used for the block size and the
dispatch grid, which the code only ever holds as positive `int3` values. -/
structure Nat3 where
  x : Nat
  y : Nat
  z : Nat
  deriving DecidableEq, Repr

/-- Descriptor of one tensor operand: its storage kind.  (The C++
`TensorDescriptor` also carries a data type, which the excerpted code
never reads.) -/
structure TensorDescriptor where
  storage_type : TensorStorageType
  deriving DecidableEq, Repr

/-- Operation definition (`OperationDef` from operations.h): precision,
the descriptor of `src_tensors[0]` and of `dst_tensors[0]` (the only
entries the excerpted code reads), and the batch-support flag. -/
structure OperationDef where
  precision : CalculationsPrecision
  src_tensor0 : TensorDescriptor
  dst_tensor0 : TensorDescriptor
  batch_support : Bool
  deriving DecidableEq, Repr

/-- Modelled from the spec: `OperationDef::GetPrimaryStorageType` is not
in the excerpt; per the spec the primary storage type is the storage kind
of the operation's first tensor. -/
def OperationDef.GetPrimaryStorageType (d : OperationDef) : TensorStorageType :=
  d.src_tensor0.storage_type

/-- Device capability probe (`CLDevice`): boolean queries for the Adreno
vendor family and its sub-generations.  Unknown devices answer `false`
everywhere. -/
structure CLDevice where
  is_adreno : Bool
  is_adreno3xx : Bool
  is_adreno4xx : Bool
  deriving DecidableEq, Repr

/-- Current dimensions of a bound runtime tensor (the `Width()`,
`Height()`, `Channels()`, `Depth()` and `Batch()` accessors used by
`BindArguments` and `GetGridSize`); `depth` is the channel-group count. -/
structure TensorDims where
  width : Nat
  height : Nat
  channels : Nat
  depth : Nat
  batch : Nat
  deriving DecidableEq, Repr

/-- Translation of `NeedStrideCorrection` (conv_texture.cc, lines 33-35):
stride correction is needed exactly when the operation supports a batch
dimension folded into width and the x-stride is not 1. -/
def NeedStrideCorrection (op_def : OperationDef) (stride : Int2) : Bool :=
  op_def.batch_support && stride.x != 1

/-- Translation of `UseFP16SIMD` (conv_texture.cc, lines 275-287): the
Adreno full-SIMD compiler flag is requested only on Adreno devices, never
for F32 or F32_F16 precision, and for F16 precision only on the Adreno
3xx sub-generation with a 1x1 kernel. -/
def UseFP16SIMD (device : CLDevice) (precision : CalculationsPrecision)
    (kernel1x1 : Bool) : Bool :=
  if !device.is_adreno then
    false
  else
    match precision with
    | CalculationsPrecision.F32 => false
    | CalculationsPrecision.F32_F16 => false
    | CalculationsPrecision.F16 => device.is_adreno3xx && kernel1x1

/-- Translation of the `adreno4xx_optimization` computation in
`ConvTexture::Compile` (conv_texture.cc, lines 336-340), as a function of
the fields and collaborators it reads. -/
def Adreno4xxOptimization (stride_ padding_ : Int2) (device : CLDevice)
    (definition_ : OperationDef) : Bool :=
  stride_.x == 1 && stride_.y == 1 && padding_.x == 0 && padding_.y == 0 &&
    device.is_adreno4xx &&
    definition_.GetPrimaryStorageType == TensorStorageType.TEXTURE_ARRAY &&
    definition_.precision == CalculationsPrecision.F16

/-- Modelled from the spec: `IntegralDivideRoundUp` (util.h) is the
ceiling division the spec calls "ceiling-divide". -/
def IntegralDivideRoundUp (n divisor : Nat) : Nat :=
  (n + divisor - 1) / divisor

/-- Translation of `ConvTexture::GetGridSize` (conv_texture.cc, lines
385-391): ceiling-divide destination width times batch by `block.x`,
height by `block.y` and channel-group depth by `block.z`. -/
def ConvTexture.GetGridSize (dst : TensorDims) (block_size_ : Nat3) : Nat3 :=
  let grid_x := IntegralDivideRoundUp (dst.width * dst.batch) block_size_.x
  let grid_y := IntegralDivideRoundUp dst.height block_size_.y
  let grid_z := IntegralDivideRoundUp dst.depth block_size_.z
  ⟨grid_x, grid_y, grid_z⟩

/-- Semantics of the per-element pixel index `p` emitted by the
batch-folded addressing (conv_texture.cc, line 115): integer division of
the global x-coordinate by the batch size. -/
def pixelIndex (coord batch : Int) : Int :=
  coord / batch

/-- Semantics of the per-element batch index `b` emitted by the
batch-folded addressing (conv_texture.cc, line 116): remainder of the
global x-coordinate by the batch size. -/
def batchIndex (coord batch : Int) : Int :=
  coord % batch

/-- Semantics of the batch-folded source x-coordinate
`p * BATCH_SIZE * stride.x + b + padding.x` (conv_texture.cc, lines
117-118). -/
def srcCoordXFolded (coord batch stride_x padding_x : Int) : Int :=
  pixelIndex coord batch * batch * stride_x + batchIndex coord batch + padding_x

/-- Semantics of the ordinary affine source x-coordinate
`(X + x) * stride.x + padding.x` (conv_texture.cc, lines 120-121). -/
def srcCoordXPlain (coord stride_x padding_x : Int) : Int :=
  coord * stride_x + padding_x

/-- Memory objects a kernel argument can refer to; opaque handles in the
embedding. -/
inductive MemObj
  | src
  | w0
  | w1
  | w2
  | w3
  | bias
  | dst
  | linked_mem (i : Nat)
  deriving DecidableEq, Repr

/-- One bound kernel argument: a memory object (`SetMemoryAuto`) or a
by-value parameter (`SetBytesAuto` of an `int4`, `int2` or `int`). -/
inductive KArg
  | mem (m : MemObj)
  | bytes4 (v : Int4)
  | bytes2 (v : Int2)
  | bytes1 (v : Int)
  deriving DecidableEq, Repr

/-- Modelled from the spec: the fixed injection context handed to fused
post-processing steps (`LinkingContext` from elementwise.h): the result
variable name and the x/y/channel coordinate names. -/
structure LinkingContext where
  var_name : String
  x_coord : String
  y_coord : String
  z_coord : String

/-- Modelled from the spec: a fused elementwise post-processing step
(`ElementwiseOperation`).  Each step contributes parameter-declaration
text (each declaration beginning with a comma-newline separator), an
epilogue fragment given the injection context, and the list of kernel
arguments it binds. -/
structure ElementwiseOperation where
  args_decl : String
  core_code : LinkingContext → String
  link_args : List KArg

/-- Modelled from the spec: `GetArgsDeclaration` (util.h) concatenates
the parameter declarations contributed by the linked operations, then a
comma-newline separating them from the following parameter. -/
def GetArgsDeclaration (linked_operations : List ElementwiseOperation) : String :=
  (linked_operations.foldl (fun acc op => acc ++ op.args_decl) "") ++ ",\n"

/-- Modelled from the spec: `PostProcess` (util.h) concatenates the
epilogue fragments contributed by the linked operations, in order, given
the fixed injection context. -/
def PostProcess (linked_operations : List ElementwiseOperation)
    (context : LinkingContext) : String :=
  linked_operations.foldl (fun acc op => acc ++ op.core_code context) ""

/-- Modelled from the spec: `GetFastestZeroMode` (util.h) picks the
fastest hardware zero-extension mode available in the texture sampler for
the device (Adreno 3xx prefers not to clamp). -/
def GetFastestZeroMode (device : CLDevice) : TextureAddressMode :=
  if device.is_adreno3xx then TextureAddressMode.DONT_CARE
  else TextureAddressMode.ZERO

/-- Modelled from the spec: `GetCommonDefines` (util.cc) emits the
precision-specific accumulation/type/sampler prelude macros. -/
def GetCommonDefines (precision : CalculationsPrecision) : String :=
  match precision with
  | CalculationsPrecision.F32 =>
    "#define ACCUM_FLT4 float4\n#define FLT4 float4\n#define TO_FLT4 convert_float4\n#define READ_IMAGE read_imagef\n#define WRITE_IMAGE write_imagef\n__constant sampler_t smp_none = CLK_NORMALIZED_COORDS_FALSE | CLK_ADDRESS_NONE | CLK_FILTER_NEAREST;\n__constant sampler_t smp_zero = CLK_NORMALIZED_COORDS_FALSE | CLK_ADDRESS_CLAMP | CLK_FILTER_NEAREST;\n"
  | CalculationsPrecision.F16 =>
    "#pragma OPENCL EXTENSION cl_khr_fp16 : enable\n#define ACCUM_FLT4 half4\n#define FLT4 half4\n#define TO_FLT4 convert_half4\n#define READ_IMAGE read_imageh\n#define WRITE_IMAGE write_imageh\n__constant sampler_t smp_none = CLK_NORMALIZED_COORDS_FALSE | CLK_ADDRESS_NONE | CLK_FILTER_NEAREST;\n__constant sampler_t smp_zero = CLK_NORMALIZED_COORDS_FALSE | CLK_ADDRESS_CLAMP | CLK_FILTER_NEAREST;\n"
  | CalculationsPrecision.F32_F16 =>
    "#pragma OPENCL EXTENSION cl_khr_fp16 : enable\n#define ACCUM_FLT4 float4\n#define FLT4 half4\n#define TO_FLT4 convert_half4\n#define READ_IMAGE read_imageh\n#define WRITE_IMAGE write_imageh\n__constant sampler_t smp_none = CLK_NORMALIZED_COORDS_FALSE | CLK_ADDRESS_NONE | CLK_FILTER_NEAREST;\n__constant sampler_t smp_zero = CLK_NORMALIZED_COORDS_FALSE | CLK_ADDRESS_CLAMP | CLK_FILTER_NEAREST;\n"

/-- Per-tensor code generator (`TensorCodeGenerator` from util.h): bound
to a tensor argument name, a size-uniform name, and a descriptor. -/
structure TensorCodeGenerator where
  tensor_name : String
  size_name : String
  descriptor : TensorDescriptor

/-- Modelled from the spec: the OpenCL access qualifier of an image
kernel argument. -/
def AccessType.qualifier (access : AccessType) : String :=
  match access with
  | AccessType.READ => "__read_only"
  | AccessType.WRITE => "__write_only"

/-- Modelled from the spec: `TensorCodeGenerator::GetDeclaration`
declares the tensor kernel parameter; linear-buffer storage kinds declare
a global pointer, sampled-image kinds declare the matching image type. -/
def TensorCodeGenerator.GetDeclaration (t : TensorCodeGenerator)
    (access : AccessType) : String :=
  match t.descriptor.storage_type with
  | TensorStorageType.BUFFER => "    __global float4* " ++ t.tensor_name
  | TensorStorageType.IMAGE_BUFFER =>
    "    " ++ access.qualifier ++ " image1d_buffer_t " ++ t.tensor_name
  | TensorStorageType.TEXTURE_2D =>
    "    " ++ access.qualifier ++ " image2d_t " ++ t.tensor_name
  | TensorStorageType.SINGLE_TEXTURE_2D =>
    "    " ++ access.qualifier ++ " image2d_t " ++ t.tensor_name
  | TensorStorageType.TEXTURE_3D =>
    "    " ++ access.qualifier ++ " image3d_t " ++ t.tensor_name
  | TensorStorageType.TEXTURE_ARRAY =>
    "    " ++ access.qualifier ++ " image2d_array_t " ++ t.tensor_name

/-- Modelled from the spec: reading an image-buffer tensor at a
precomputed linear address. -/
def TensorCodeGenerator.Read (t : TensorCodeGenerator)
    (address : String) : String :=
  "READ_IMAGE(" ++ t.tensor_name ++ ", " ++ address ++ ")"

/-- Modelled from the spec: the sampler chosen for an out-of-bounds
addressing mode. -/
def TextureAddressMode.sampler (mode : TextureAddressMode) : String :=
  match mode with
  | TextureAddressMode.DONT_CARE => "smp_none"
  | TextureAddressMode.ZERO => "smp_zero"

/-- Modelled from the spec: `TensorCodeGenerator::Read3D` reads one FLT4
value at (x, y, channel-group) coordinates; the addressing text depends
on the storage kind, and out-of-bounds handling is delegated to the
sampler chosen from the address mode. -/
def TensorCodeGenerator.Read3D (t : TensorCodeGenerator)
    (x y z : String) (mode : TextureAddressMode) : String :=
  match t.descriptor.storage_type with
  | TensorStorageType.BUFFER =>
    t.tensor_name ++ "[((" ++ z ++ ") * " ++ t.size_name ++ ".y + (" ++ y ++
      ")) * " ++ t.size_name ++ ".x + (" ++ x ++ ")]"
  | TensorStorageType.IMAGE_BUFFER =>
    "READ_IMAGE(" ++ t.tensor_name ++ ", ((" ++ z ++ ") * " ++ t.size_name ++
      ".y + (" ++ y ++ ")) * " ++ t.size_name ++ ".x + (" ++ x ++ "))"
  | TensorStorageType.TEXTURE_2D =>
    "READ_IMAGE(" ++ t.tensor_name ++ ", " ++ mode.sampler ++ ", (int2)((" ++
      x ++ "), (" ++ y ++ ") * " ++ t.size_name ++ ".w + (" ++ z ++ ")))"
  | TensorStorageType.SINGLE_TEXTURE_2D =>
    "READ_IMAGE(" ++ t.tensor_name ++ ", " ++ mode.sampler ++ ", (int2)((" ++
      x ++ "), (" ++ y ++ ")))"
  | TensorStorageType.TEXTURE_3D =>
    "READ_IMAGE(" ++ t.tensor_name ++ ", " ++ mode.sampler ++ ", (int4)((" ++
      x ++ "), (" ++ y ++ "), (" ++ z ++ "), 0))"
  | TensorStorageType.TEXTURE_ARRAY =>
    "READ_IMAGE(" ++ t.tensor_name ++ ", " ++ mode.sampler ++ ", (int4)((" ++
      x ++ "), (" ++ y ++ "), (" ++ z ++ "), 0))"

/-- Modelled from the spec: `TensorCodeGenerator::Write3D` stores one
FLT4 value at (x, y, channel-group) coordinates. -/
def TensorCodeGenerator.Write3D (t : TensorCodeGenerator)
    (var x y z : String) : String :=
  match t.descriptor.storage_type with
  | TensorStorageType.BUFFER =>
    t.tensor_name ++ "[((" ++ z ++ ") * " ++ t.size_name ++ ".y + (" ++ y ++
      ")) * " ++ t.size_name ++ ".x + (" ++ x ++ ")] = " ++ var ++ ";"
  | TensorStorageType.IMAGE_BUFFER =>
    t.tensor_name ++ "[((" ++ z ++ ") * " ++ t.size_name ++ ".y + (" ++ y ++
      ")) * " ++ t.size_name ++ ".x + (" ++ x ++ ")] = " ++ var ++ ";"
  | TensorStorageType.TEXTURE_2D =>
    "WRITE_IMAGE(" ++ t.tensor_name ++ ", (int2)((" ++ x ++ "), (" ++ y ++
      ") * " ++ t.size_name ++ ".w + (" ++ z ++ ")), " ++ var ++ ");"
  | TensorStorageType.SINGLE_TEXTURE_2D =>
    "WRITE_IMAGE(" ++ t.tensor_name ++ ", (int2)((" ++ x ++ "), (" ++ y ++
      ")), " ++ var ++ ");"
  | TensorStorageType.TEXTURE_3D =>
    "WRITE_IMAGE(" ++ t.tensor_name ++ ", (int4)((" ++ x ++ "), (" ++ y ++
      "), (" ++ z ++ "), 0), " ++ var ++ ");"
  | TensorStorageType.TEXTURE_ARRAY =>
    "WRITE_IMAGE(" ++ t.tensor_name ++ ", (int4)((" ++ x ++ "), (" ++ y ++
      "), (" ++ z ++ "), 0), " ++ var ++ ");"

/-- Concatenation of `f 0 ++ f 1 ++ ... ++ f (n-1)`, the embedding of a
C++ `for` loop appending to an accumulator string. -/
def sCat (n : Nat) (f : Nat → String) : String :=
  (List.range n).foldl (fun acc i => acc ++ f i) ""

/-- Concatenation of a list of emitted source fragments: the embedding
of the C++ accumulator string `c` that the generator appends to. -/
def joinParts (parts : List String) : String :=
  parts.foldl (fun acc s => acc ++ s) ""

/-- Translation of `GenerateConvCode` (conv_texture.cc, lines 37-273) as
the ordered list of fragments appended to the accumulator string `c`:
each element corresponds to one `c += ...` statement of the C++ code (a
loop iteration that performs several adjacent appends contributes their
concatenation as one element).  Loops over the block extents become maps
over `List.range`; `absl::Substitute` calls are inlined as the
corresponding concatenations; braces in emitted text are written with
their hexadecimal character escapes.  The generated source is the
concatenation `GenerateConvCode` of this list. -/
def GenerateConvParts (op_def : OperationDef) (block_size : Nat3) (is1x1 : Bool)
    (adreno4xx_optimization : Bool) (stride : Int2) (device : CLDevice)
    (linked_operations : List ElementwiseOperation) : List String :=
  let src_tensor : TensorCodeGenerator := ⟨"src_data", "src_size", op_def.src_tensor0⟩
  let dst_tensor : TensorCodeGenerator := ⟨"dst_data", "dst_size", op_def.dst_tensor0⟩
  let is_image_buffer :=
    op_def.src_tensor0.storage_type == TensorStorageType.IMAGE_BUFFER
  let xs : Nat → String := fun x => toString x
  let ys : Nat → String := fun y => toString y
  let zs : Nat → String := fun z => toString z
  let c : List String := [GetCommonDefines op_def.precision]
  let c := c ++ (List.range block_size.z).map (fun z =>
    let f0 := toString (z * 4 + 0)
    let f1 := toString (z * 4 + 1)
    let f2 := toString (z * 4 + 2)
    let f3 := toString (z * 4 + 3)
    match op_def.precision with
    | CalculationsPrecision.F32 =>
      "#define CONV" ++ zs z ++ "(R, S)    \\\n" ++
      "R += S.x * f" ++ f0 ++ "; \\\n" ++
      "R += S.y * f" ++ f1 ++ "; \\\n" ++
      "R += S.z * f" ++ f2 ++ "; \\\n" ++
      "R += S.w * f" ++ f3 ++ ";   \n"
    | CalculationsPrecision.F16 =>
      "#define CONV" ++ zs z ++ "(R, S)    \\\n" ++
      "R += S.x * f" ++ f0 ++ "; \\\n" ++
      "R += S.y * f" ++ f1 ++ "; \\\n" ++
      "R += S.z * f" ++ f2 ++ "; \\\n" ++
      "R += S.w * f" ++ f3 ++ ";   \n"
    | CalculationsPrecision.F32_F16 =>
      "#define CONV" ++ zs z ++ "(R, S) \\\n" ++
      "R += convert_float4(S.x * f" ++ f0 ++ " + S.y * f" ++ f1 ++
        " + S.z * f" ++ f2 ++ " + S.w * f" ++ f3 ++ ");\n")
  let c := c ++ ["__kernel void main_function(\n"]
  let c := c ++ [src_tensor.GetDeclaration AccessType.READ ++ ",\n"]
  let c := c ++ ["    __read_only image2d_t filters0,   \n"]
  let c := c ++ ["    __read_only image2d_t filters1,   \n"]
  let c := c ++ ["    __read_only image2d_t filters2,   \n"]
  let c := c ++ ["    __read_only image2d_t filters3,   \n"]
  let c := c ++ ["    __read_only image2d_t biases"]
  let c := c ++ [GetArgsDeclaration linked_operations]
  let c := c ++ [dst_tensor.GetDeclaration AccessType.WRITE ++ ",\n"]
  let c := c ++ ["    int4 src_size,                   \n"]
  let c := c ++ ["    int4 dst_size,                   \n"]
  let c :=
    if !is1x1 then
      c ++ ["    int2 kernel_size,              \n",
        "    int2 dilation,                 \n"]
    else c
  let c :=
    if NeedStrideCorrection op_def stride then
      c ++ ["    int BATCH_SIZE,  \n"]
    else c
  let c := c ++ ["    int2 stride,                     \n"]
  let c := c ++ ["    int2 padding                     \n"]
  let c := c ++ [") \x7b\n"]
  let c := c ++ ["  int X = get_global_id(0) * " ++ toString block_size.x ++ ";\n"]
  let c := c ++ ["  int Y = get_global_id(1) * " ++ toString block_size.y ++ ";\n"]
  let c := c ++ ["  int Z = get_global_id(2) * " ++ toString block_size.z ++ ";\n"]
  let c := c ++ ["  if (X >= dst_size.x || Y >= dst_size.y || Z >= dst_size.w) return;\n"]
  let s_x : Nat → String := fun x => if is1x1 then "xc" ++ xs x else "cx" ++ xs x
  let s_y : Nat → String := fun y => if is1x1 then "yc" ++ ys y else "cy" ++ ys y
  let c := c ++ (List.range block_size.x).map (fun x =>
    if NeedStrideCorrection op_def stride then
      "  int p" ++ xs x ++ " = (X + " ++ xs x ++ ") / BATCH_SIZE;\n" ++
      "  int b" ++ xs x ++ " = (X + " ++ xs x ++ ") % BATCH_SIZE;\n" ++
      "  int xc" ++ xs x ++ " = p" ++ xs x ++ " * BATCH_SIZE * stride.x + b" ++
        xs x ++ " + padding.x;\n"
    else
      "  int xc" ++ xs x ++ " = (X +" ++ xs x ++ ") * stride.x + padding.x;\n")
  let c := c ++ (List.range block_size.y).map (fun y =>
    "  int yc" ++ ys y ++ " = (Y +" ++ ys y ++ ") * stride.y + padding.y;\n")
  let c := c ++ (List.range (block_size.x * block_size.y * block_size.z)).map (fun i =>
    "  ACCUM_FLT4 r" ++ toString i ++ " = (ACCUM_FLT4)(0.0f, 0.0f, 0.0f, 0.0f);\n")
  let f_y := if is1x1 then ("s") else ("filter_offset")
  let c :=
    if !is1x1 then
      let c := c ++ (List.range block_size.x).map (fun x => "  int cx" ++ xs x ++ ";\n")
      let c := c ++ (List.range block_size.y).map (fun y => "  int cy" ++ ys y ++ ";\n")
      let c := c ++ ["  int filter_offset = 0;\n"]
      let c := c ++ ["  for (int y = 0; y < kernel_size.y; ++y) \x7b\n"]
      let c := c ++ (List.range block_size.y).map (fun y =>
        "  cy" ++ ys y ++ " = y * dilation.y + yc" ++ ys y ++ ";\n")
      let c :=
        if is_image_buffer then
          c ++ (List.range block_size.y).map (fun y =>
            "  bool in_y" ++ ys y ++ " = cy" ++ ys y ++ " >= 0 && cy" ++ ys y ++
              " < src_size.y;\n")
        else c
      let c := c ++ ["  for (int x = 0; x < kernel_size.x; ++x) \x7b\n"]
      let c := c ++ (List.range block_size.x).map (fun x =>
        "  cx" ++ xs x ++ " = x * dilation.x + xc" ++ xs x ++ ";\n")
      if is_image_buffer then
        let c := c ++ (List.range block_size.x).map (fun x =>
          "  bool in_x" ++ xs x ++ " = cx" ++ xs x ++ " >= 0 && cx" ++ xs x ++
            " < src_size.x;\n")
        c ++ (List.range block_size.x).flatMap (fun x =>
          (List.range block_size.y).map (fun y =>
            "  int addr_" ++ toString (y * block_size.x + x) ++ " = select(-1, cy" ++
              ys y ++ " * src_size.x + cx" ++ xs x ++ ", (in_x" ++ xs x ++
              " && in_y" ++ ys y ++ "));\n" ++
            "  int dz_" ++ toString (y * block_size.x + x) ++
              " = select(0, src_size.x * src_size.y, (in_x" ++ xs x ++
              " && in_y" ++ ys y ++ "));\n"))
      else c
    else if is_image_buffer then
      let c := c ++ (List.range block_size.y).map (fun y =>
        "  bool in_y" ++ ys y ++ " = yc" ++ ys y ++ " >= 0 && yc" ++ ys y ++
          " < src_size.y;\n")
      let c := c ++ (List.range block_size.x).map (fun x =>
        "  bool in_x" ++ xs x ++ " = xc" ++ xs x ++ " >= 0 && xc" ++ xs x ++
          " < src_size.x;\n")
      c ++ (List.range block_size.x).flatMap (fun x =>
        (List.range block_size.y).map (fun y =>
          "  int addr_" ++ toString (y * block_size.x + x) ++ " = select(-1, yc" ++
            ys y ++ " * src_size.x + xc" ++ xs x ++ ", (in_x" ++ xs x ++
            " && in_y" ++ ys y ++ "));\n" ++
          "  int dz_" ++ toString (y * block_size.x + x) ++
            " = select(0, src_size.x * src_size.y, (in_x" ++ xs x ++
            " && in_y" ++ ys y ++ "));\n"))
    else c
  let c := c ++ ["  for (int s = 0; s < src_size.w; ++s) \x7b\n"]
  let c :=
    if is_image_buffer then
      c ++ (List.range (block_size.x * block_size.y)).map (fun index =>
        "    FLT4 src" ++ toString index ++ " = " ++
          src_tensor.Read ("addr_" ++ toString index) ++ ";\n")
    else c
  let c := c ++ (List.range block_size.z).map (fun z =>
    let fc := "(int2)(Z + " ++ zs z ++ ", " ++ f_y ++ ")"
    "    FLT4 f" ++ toString (z * 4 + 0) ++ " = READ_IMAGE(filters0, smp_none, " ++
      fc ++ ");\n" ++
    "    FLT4 f" ++ toString (z * 4 + 1) ++ " = READ_IMAGE(filters1, smp_none, " ++
      fc ++ ");\n" ++
    "    FLT4 f" ++ toString (z * 4 + 2) ++ " = READ_IMAGE(filters2, smp_none, " ++
      fc ++ ");\n" ++
    "    FLT4 f" ++ toString (z * 4 + 3) ++ " = READ_IMAGE(filters3, smp_none, " ++
      fc ++ ");\n")
  let c :=
    if !is_image_buffer then
      let mode := GetFastestZeroMode device
      c ++ (List.range block_size.x).flatMap (fun x =>
        (List.range block_size.y).map (fun y =>
          "    FLT4 src" ++ toString (y * block_size.x + x) ++ " = " ++
            src_tensor.Read3D (s_x x) (s_y y) ("s") mode ++ ";\n"))
    else c
  let c := c ++ (List.range block_size.z).flatMap (fun z =>
    (List.range (block_size.x * block_size.y)).map (fun i =>
      "    CONV" ++ zs z ++ "(r" ++ toString (i + z * block_size.x * block_size.y) ++
        ", src" ++ toString i ++ ");\n"))
  let c := if !is1x1 then c ++ ["    filter_offset++;\n"] else c
  let c :=
    if is_image_buffer then
      c ++ (List.range (block_size.x * block_size.y)).map (fun index =>
        "     addr_" ++ toString index ++ " += dz_" ++ toString index ++ ";\n")
    else c
  let c := c ++ ["  \x7d\n"]
  let c := if !is1x1 then c ++ ["  \x7d\n", "  \x7d\n"] else c
  let dst_x := if is1x1 && adreno4xx_optimization then ("xc0") else ("X")
  let dst_y := if is1x1 && adreno4xx_optimization then ("yc0") else ("Y")
  let c := c ++ (List.range block_size.z).flatMap (fun z =>
    ["  if (Z < dst_size.w) \x7b\n",
     "    FLT4 bias_val = READ_IMAGE(biases, smp_none, (int2)(Z, 0));\n"] ++
    (List.range block_size.y).flatMap (fun y =>
      (List.range block_size.x).map (fun x =>
        let id := toString ((z * block_size.y + y) * block_size.x + x)
        "    \x7b\n" ++
        "      int xc = " ++ dst_x ++ " + " ++ xs x ++ ";\n" ++
        "      int yc = " ++ dst_y ++ " + " ++ ys y ++ ";\n" ++
        "      if (xc < dst_size.x && yc < dst_size.y) \x7b\n" ++
        "        FLT4 res = TO_FLT4(r" ++ id ++ ") + bias_val;\n" ++
        PostProcess linked_operations ⟨"res", "xc", "yc", "Z"⟩ ++
        "        " ++ dst_tensor.Write3D ("res") ("xc") ("yc") ("Z") ++ "\n" ++
        "      \x7d\n" ++
        "    \x7d\n")) ++
    ["  \x7d\n", "  Z++;\n"])
  c ++ ["\x7d\n"]

/-- Translation of `GenerateConvCode` (conv_texture.cc, lines 37-273):
the generated kernel source text, the concatenation of the fragments the
C++ code appends to its accumulator string. -/
def GenerateConvCode (op_def : OperationDef) (block_size : Nat3) (is1x1 : Bool)
    (adreno4xx_optimization : Bool) (stride : Int2) (device : CLDevice)
    (linked_operations : List ElementwiseOperation) : String :=
  joinParts (GenerateConvParts op_def block_size is1x1 adreno4xx_optimization
    stride device linked_operations)

/-- Compiled kernel argument state (`CLKernel` from cl_kernel.h): the
auto-binding counter and the map from binding position to the currently
bound argument.  `SetMemoryAuto` and `SetBytesAuto` cannot fail in the
embedding; their failure modes are CL API errors outside the model. -/
@[ext]
structure CLKernel where
  binding_counter : Nat
  bound : Nat → Option KArg

/-- Translation of `CLKernel::ResetBindingCounter`: restart auto binding
at position 0, leaving previously bound arguments in place. -/
def CLKernel.ResetBindingCounter (k : CLKernel) : CLKernel :=
  ⟨0, k.bound⟩

/-- Translation of `CLKernel::SetMemoryAuto` / `SetBytesAuto`: bind the
argument at the current counter position and advance the counter. -/
def CLKernel.SetAuto (k : CLKernel) (a : KArg) : CLKernel :=
  ⟨k.binding_counter + 1,
   fun i => if i = k.binding_counter then some a else k.bound i⟩

/-- Bind a list of arguments in order via `SetAuto`. -/
def CLKernel.BindAll (k : CLKernel) (args : List KArg) : CLKernel :=
  args.foldl CLKernel.SetAuto k

/-- Weights shape of the convolution (OHWI). -/
structure ConvWeightsShape where
  o : Int
  i : Int
  h : Int
  w : Int
  deriving DecidableEq, Repr

/-- Width/height pair as used by strides, dilations and padding. -/
structure HW where
  w : Int
  h : Int
  deriving DecidableEq, Repr

/-- Mathematical parameters of the convolution
(`Convolution2DAttributes`): weight-tensor shape, strides, prepended
padding and dilations (the fields the excerpted code reads). -/
structure Convolution2DAttributes where
  weights_shape : ConvWeightsShape
  strides : HW
  padding_prepended : HW
  dilations : HW
  deriving DecidableEq, Repr

/-- State of a `ConvTexture` operation controller: the operation
definition and linked operations (from the `GPUOperation` base), the
geometry fields, the block size, the compiled kernel's argument state and
the work-group size. -/
@[ext]
structure ConvTexture where
  definition_ : OperationDef
  linked_operations_ : List ElementwiseOperation
  kernel_size_ : Int2
  stride_ : Int2
  padding_ : Int2
  dilation_ : Int2
  block_size_ : Nat3
  kernel_ : CLKernel
  work_group_size_ : Nat3

/-- Translation of the `ConvTexture` constructor (conv_texture.cc, lines
290-297): kernel size from the weight shape, stride and dilation copied,
padding stored as the negated prepended padding, work-group size fixed at
(4, 4, 2).  `init_block` and `init_kernel` stand for the
default-initialized members whose initializers live in the header, which
is outside the excerpt. -/
def ConvTexture.construct (definition : OperationDef)
    (attr : Convolution2DAttributes) (init_block : Nat3)
    (init_kernel : CLKernel) : ConvTexture :=
  ⟨definition, [],
   ⟨attr.weights_shape.w, attr.weights_shape.h⟩,
   ⟨attr.strides.w, attr.strides.h⟩,
   ⟨-attr.padding_prepended.w, -attr.padding_prepended.h⟩,
   ⟨attr.dilations.w, attr.dilations.h⟩,
   init_block, init_kernel, ⟨4, 4, 2⟩⟩

/-- Positional slot names for the generated kernel's parameter list and
for the arguments `BindArguments` binds. -/
inductive ParamSlot
  | src_tensor
  | filters0
  | filters1
  | filters2
  | filters3
  | biases
  | linked_arg
  | dst_tensor
  | src_size
  | dst_size
  | kernel_size
  | dilation
  | batch_size
  | stride
  | padding
  deriving DecidableEq, Repr

/-- The positional parameter list of the generated kernel's entry point,
read off the signature-emission block of `GenerateConvCode`
(conv_texture.cc, lines 85-104): source tensor, four filter slices, bias
table, the parameters declared by the linked operations, destination
tensor, the two size vectors, conditionally kernel-size and dilation,
conditionally the batch size, then stride and padding. -/
def KernelSignatureSlots (op_def : OperationDef) (stride : Int2)
    (is1x1 : Bool) (linked_operations : List ElementwiseOperation) :
    List ParamSlot :=
  [ParamSlot.src_tensor, ParamSlot.filters0, ParamSlot.filters1,
   ParamSlot.filters2, ParamSlot.filters3, ParamSlot.biases] ++
  (linked_operations.foldl
    (fun acc op => acc ++ op.link_args.map (fun _ => ParamSlot.linked_arg)) []) ++
  [ParamSlot.dst_tensor, ParamSlot.src_size, ParamSlot.dst_size] ++
  (if !is1x1 then [ParamSlot.kernel_size, ParamSlot.dilation] else []) ++
  (if NeedStrideCorrection op_def stride then [ParamSlot.batch_size] else []) ++
  [ParamSlot.stride, ParamSlot.padding]

/-- Translation of the argument sequence bound by
`ConvTexture::BindArguments` (conv_texture.cc, lines 353-382), each
argument tagged with its slot: source memory, the four weight slices, the
bias table, the linked operations' arguments, destination memory, source
and destination size vectors (width scaled by batch), conditionally the
kernel size and the batch-scaled dilation, conditionally the destination
batch, then stride and the batch-scaled padding. -/
def ConvTexture.BindSequence (t : ConvTexture) (src dst : TensorDims) :
    List (ParamSlot × KArg) :=
  let src_size : Int4 :=
    ⟨(src.width * src.batch : Nat), (src.height : Nat),
     (src.channels : Nat), (src.depth : Nat)⟩
  let dst_size : Int4 :=
    ⟨(dst.width * dst.batch : Nat), (dst.height : Nat),
     (dst.channels : Nat), (dst.depth : Nat)⟩
  [(ParamSlot.src_tensor, KArg.mem MemObj.src),
   (ParamSlot.filters0, KArg.mem MemObj.w0),
   (ParamSlot.filters1, KArg.mem MemObj.w1),
   (ParamSlot.filters2, KArg.mem MemObj.w2),
   (ParamSlot.filters3, KArg.mem MemObj.w3),
   (ParamSlot.biases, KArg.mem MemObj.bias)] ++
  (t.linked_operations_.foldl
    (fun acc op => acc ++ op.link_args.map (fun a => (ParamSlot.linked_arg, a))) []) ++
  [(ParamSlot.dst_tensor, KArg.mem MemObj.dst),
   (ParamSlot.src_size, KArg.bytes4 src_size),
   (ParamSlot.dst_size, KArg.bytes4 dst_size)] ++
  (if !(t.kernel_size_.x == 1 && t.kernel_size_.y == 1) then
    [(ParamSlot.kernel_size, KArg.bytes2 t.kernel_size_),
     (ParamSlot.dilation,
      KArg.bytes2 ⟨t.dilation_.x * (src.batch : Int), t.dilation_.y⟩)]
  else []) ++
  (if NeedStrideCorrection t.definition_ t.stride_ then
    [(ParamSlot.batch_size, KArg.bytes1 (dst.batch : Int))]
  else []) ++
  [(ParamSlot.stride, KArg.bytes2 t.stride_),
   (ParamSlot.padding,
    KArg.bytes2 ⟨t.padding_.x * (src.batch : Int), t.padding_.y⟩)]

/-- Translation of `ConvTexture::BindArguments` (conv_texture.cc, lines
353-383): reset the binding counter, then bind the whole argument
sequence afresh against the current source/destination tensor
dimensions.  Only the kernel's bound-argument state changes. -/
def ConvTexture.BindArguments (t : ConvTexture) (src dst : TensorDims) :
    ConvTexture :=
  ⟨t.definition_, t.linked_operations_, t.kernel_size_, t.stride_,
   t.padding_, t.dilation_, t.block_size_,
   CLKernel.BindAll t.kernel_.ResetBindingCounter
     ((t.BindSequence src dst).map Prod.snd),
   t.work_group_size_⟩

/-- Whether the first list is an initial segment of the second. -/
def leadsWith : List Char → List Char → Bool
  | [], _ => true
  | _ :: _, [] => false
  | p :: ps, c :: cs => p == c && leadsWith ps cs

/-- Number of (possibly overlapping) occurrences of `pat` in `s`. -/
def countOccs (pat : List Char) : List Char → Nat
  | [] => 0
  | c :: cs => (if leadsWith pat (c :: cs) then 1 else 0) + countOccs pat cs

/-- Number of occurrences of the pattern string in `s`. -/
def countOccsStr (pat s : String) : Nat :=
  countOccs pat.data s.data


/-- Suffix of the last `k` characters (all of `l` when it is shorter). -/
def lastN (k : Nat) (l : List Char) : List Char :=
  (l.reverse.take k).reverse

/-- Windowed occurrence count over a fragment list: each step counts the
occurrences that end inside the next fragment (including those beginning
in the carried window of the previous `pat.length - 1` characters), then
carries the new window forward. -/
def chunkCountAux (pat : List Char) : List Char → List String → Nat
  | _, [] => 0
  | w, s :: rest =>
    countOccs pat (w ++ s.data) +
      chunkCountAux pat (lastN (pat.length - 1) (w ++ s.data)) rest

/-- Arguments bound at a given slot of the `BindArguments` sequence. -/
def boundAtSlot (t : ConvTexture) (src dst : TensorDims) (slot : ParamSlot) :
    List KArg :=
  ((t.BindSequence src dst).filter (fun pr => pr.1 == slot)).map Prod.snd

-- Concrete fixtures used by the example-scenario claims and witnesses.

/-- A device that is not in the Adreno family. -/
def deviceNone : CLDevice :=
  ⟨false, false, false⟩

/-- An Adreno device of the 4xx sub-generation. -/
def deviceAdreno4xx : CLDevice :=
  ⟨true, false, true⟩

/-- An Adreno device of the 3xx sub-generation. -/
def deviceAdreno3xx : CLDevice :=
  ⟨true, true, false⟩

/-- Operation definition of the example scenario: single precision,
texture-2d storage, no batch support. -/
def opDefExample : OperationDef :=
  ⟨CalculationsPrecision.F32, ⟨TensorStorageType.TEXTURE_2D⟩,
   ⟨TensorStorageType.TEXTURE_2D⟩, false⟩

/-- Convolution attributes of the example scenario: 3x3 window, stride
(1,1), prepended padding (1,1), dilation (1,1). -/
def attrExample : Convolution2DAttributes :=
  ⟨⟨16, 8, 3, 3⟩, ⟨1, 1⟩, ⟨1, 1⟩, ⟨1, 1⟩⟩

/-- Kernel argument state with nothing bound. -/
def kernel0 : CLKernel :=
  ⟨0, fun _ => none⟩

/-- Generated source of the example scenario: 3x3 window (not 1x1),
block (2,2,1), no vendor fast path, stride (1,1), no batch folding. -/
def codeExample : String :=
  GenerateConvCode opDefExample ⟨2, 2, 1⟩ false false ⟨1, 1⟩ deviceNone []

/-- Operation definition qualifying for the Adreno-4xx fast path:
half precision, texture-array storage. -/
def opDefF16TA : OperationDef :=
  ⟨CalculationsPrecision.F16, ⟨TensorStorageType.TEXTURE_ARRAY⟩,
   ⟨TensorStorageType.TEXTURE_ARRAY⟩, false⟩

/-- Generated source for a 1x1 kernel with the Adreno-4xx optimization
enabled, block (1,1,1). -/
def codeAdreno4xx1x1 : String :=
  GenerateConvCode opDefF16TA ⟨1, 1, 1⟩ true true ⟨1, 1⟩ deviceAdreno4xx []

/-- Operation definition with batch support (batch folded into width). -/
def opDefBatch : OperationDef :=
  ⟨CalculationsPrecision.F32, ⟨TensorStorageType.TEXTURE_2D⟩,
   ⟨TensorStorageType.TEXTURE_2D⟩, true⟩

/-- Generated source with batch folding and stride 2: the batch-folded
addressing regime. -/
def codeStrideCorrected : String :=
  GenerateConvCode opDefBatch ⟨1, 1, 1⟩ true false ⟨2, 2⟩ deviceNone []

/-- Generated source with batch folding but stride 1: the ordinary
affine addressing regime. -/
def codeStrideOne : String :=
  GenerateConvCode opDefBatch ⟨1, 1, 1⟩ true false ⟨1, 1⟩ deviceNone []

/-- Generated source without batch folding at stride 2: the ordinary
affine addressing regime. -/
def codeNoBatch : String :=
  GenerateConvCode opDefExample ⟨1, 1, 1⟩ true false ⟨2, 2⟩ deviceNone []

/-- A controller state over the example operation (3x3 window, stride
(1,1), stored padding (-1,-1)). -/
def convT0 : ConvTexture :=
  ⟨opDefExample, [], ⟨3, 3⟩, ⟨1, 1⟩, ⟨-1, -1⟩, ⟨1, 1⟩, ⟨2, 2, 1⟩, kernel0,
   ⟨4, 4, 2⟩⟩

/-- Destination dimensions of the grid example: width 17, height 9,
channel-group depth 5, batch 1. -/
def dimsGrid : TensorDims :=
  ⟨17, 9, 20, 5, 1⟩

/-- Source dimensions used by the binding witnesses (batch 2). -/
def dimsSrc0 : TensorDims :=
  ⟨8, 6, 16, 4, 2⟩

/-- Half precision with texture-2d storage: qualifies for the fast path
on every condition except the storage kind. -/
def opDefF16T2D : OperationDef :=
  ⟨CalculationsPrecision.F16, ⟨TensorStorageType.TEXTURE_2D⟩,
   ⟨TensorStorageType.TEXTURE_2D⟩, false⟩

/-- Single precision with texture-array storage: qualifies for the fast
path on every condition except the precision. -/
def opDefF32TA : OperationDef :=
  ⟨CalculationsPrecision.F32, ⟨TensorStorageType.TEXTURE_ARRAY⟩,
   ⟨TensorStorageType.TEXTURE_ARRAY⟩, false⟩

-- Emitted-text patterns used by the text-content claims.

/-- Header of the kernel-window y loop (conv_texture.cc, line 142). -/
def patLoopY : String :=
  "  for (int y = 0; y < kernel_size.y; ++y) \x7b\n"

/-- Header of the kernel-window x loop (conv_texture.cc, line 152). -/
def patLoopX : String :=
  "  for (int x = 0; x < kernel_size.x; ++x) \x7b\n"

/-- The nested coordinate-recomputation loops of the example scenario:
the y loop header, the two per-row coordinate recomputations, then the x
loop header. -/
def patNestedLoops : String :=
  patLoopY ++ "  cy0 = y * dilation.y + yc0;\n" ++
    "  cy1 = y * dilation.y + yc1;\n" ++ patLoopX

/-- Name of the conditional batch-size kernel parameter. -/
def patBatchSize : String :=
  "BATCH_SIZE"

/-- The per-tile-element destination bounds check of the epilogue
(conv_texture.cc, line 259). -/
def patBoundsCheck : String :=
  "xc < dst_size.x && yc < dst_size.y"

/-- Epilogue destination x-coordinate reusing the precomputed source
coordinate (Adreno-4xx fast path). -/
def patXcFromXc0 : String :=
  "      int xc = xc0 + "

/-- Epilogue destination y-coordinate reusing the precomputed source
coordinate (Adreno-4xx fast path). -/
def patYcFromYc0 : String :=
  "      int yc = yc0 + "

/-- Epilogue destination x-coordinate recomputed from the global id (the
ordinary epilogue addressing). -/
def patXcFromX : String :=
  "      int xc = X + "

/-- The batch-folded x-addressing lines emitted for block column 0
(conv_texture.cc, lines 115-118). -/
def patFolded0 : String :=
  "  int p0 = (X + 0) / BATCH_SIZE;\n" ++
    "  int b0 = (X + 0) % BATCH_SIZE;\n" ++
    "  int xc0 = p0 * BATCH_SIZE * stride.x + b0 + padding.x;\n"

/-- The ordinary affine x-addressing line emitted for block column 0
(conv_texture.cc, lines 120-121). -/
def patAffine0 : String :=
  "  int xc0 = (X +0) * stride.x + padding.x;\n"

-- Ceiling-division bounds used for the grid-coverage claim.

lemma ceil_div_mul_ge (n d : Nat) (hn : 0 < n) (hd : 0 < d) :
    n ≤ IntegralDivideRoundUp n d * d := by
  unfold IntegralDivideRoundUp
  have hrw : n + d - 1 = (n - 1) + d := by omega
  rw [hrw, Nat.add_div_right _ hd]
  have h2 := Nat.lt_mul_div_succ (n - 1) hd
  calc n = n - 1 + 1 := by omega
    _ ≤ d * ((n - 1) / d + 1) := h2
    _ = ((n - 1) / d + 1) * d := Nat.mul_comm _ _

lemma ceil_div_pred_mul_lt (n d : Nat) (hn : 0 < n) (hd : 0 < d) :
    (IntegralDivideRoundUp n d - 1) * d < n := by
  unfold IntegralDivideRoundUp
  have hrw : n + d - 1 = (n - 1) + d := by omega
  rw [hrw, Nat.add_div_right _ hd]
  rw [Nat.add_sub_cancel]
  have h1 : (n - 1) / d * d ≤ n - 1 := Nat.div_mul_le_self _ _
  omega


lemma leadsWith_false_of_short (pat s : List Char) (h : s.length < pat.length) :
    leadsWith pat s = false := by
  induction pat generalizing s with
  | nil => simp at h
  | cons p ps ih =>
    cases s with
    | nil => rfl
    | cons c cs =>
      simp only [leadsWith]
      have hc : cs.length < ps.length := by
        simp only [List.length_cons] at h
        omega
      rw [ih cs hc]
      simp

lemma countOccs_eq_zero_of_short (pat s : List Char) (h : s.length < pat.length) :
    countOccs pat s = 0 := by
  induction s with
  | nil => rfl
  | cons c cs ih =>
    simp only [countOccs]
    rw [leadsWith_false_of_short pat _ h]
    have hc : cs.length < pat.length := by
      simp only [List.length_cons] at h
      omega
    simp [ih hc]

lemma leadsWith_append_of_le (pat u v : List Char) (h : pat.length ≤ u.length) :
    leadsWith pat (u ++ v) = leadsWith pat u := by
  induction pat generalizing u with
  | nil => rfl
  | cons p ps ih =>
    cases u with
    | nil => simp at h
    | cons a u' =>
      simp only [List.cons_append, leadsWith, List.append_eq]
      have hu : ps.length ≤ u'.length := by
        simp only [List.length_cons] at h
        omega
      rw [ih u' hu]

lemma lastN_of_le (k : Nat) (l : List Char) (h : l.length ≤ k) :
    lastN k l = l := by
  unfold lastN
  rw [List.take_of_length_le (by simpa using h), List.reverse_reverse]

lemma lastN_cons (k : Nat) (c : Char) (l : List Char) (h : k ≤ l.length) :
    lastN k (c :: l) = lastN k l := by
  unfold lastN
  rw [List.reverse_cons, List.take_append_of_le_length (by simpa using h)]

lemma lastN_append_lastN (k : Nat) (a b : List Char) :
    lastN k (a ++ b) = lastN k (lastN k a ++ b) := by
  have hL : lastN k (a ++ b)
      = (b.reverse.take k ++ a.reverse.take (k - b.reverse.length)).reverse := by
    unfold lastN
    rw [List.reverse_append, List.take_append_eq_append_take]
  have hR : lastN k (lastN k a ++ b)
      = (b.reverse.take k ++
          List.take (k - b.reverse.length) (List.take k a.reverse)).reverse := by
    unfold lastN
    rw [List.reverse_append, List.reverse_reverse, List.take_append_eq_append_take]
  rw [hL, hR, List.take_take]
  rw [Nat.min_eq_left (Nat.sub_le k b.reverse.length)]

lemma countOccs_append_window (pat : List Char) (hp : 0 < pat.length)
    (t s : List Char) :
    countOccs pat (t ++ s) =
      countOccs pat t + countOccs pat (lastN (pat.length - 1) t ++ s) := by
  induction t with
  | nil => simp [lastN, countOccs]
  | cons c t' ih =>
    by_cases hlen : (c :: t').length ≤ pat.length - 1
    · rw [lastN_of_le _ _ hlen]
      rw [countOccs_eq_zero_of_short pat (c :: t')
        (by simp only [List.length_cons] at hlen ⊢; omega)]
      simp
    · push_neg at hlen
      have hk : pat.length - 1 ≤ t'.length := by
        simp only [List.length_cons] at hlen
        omega
      rw [lastN_cons _ _ _ hk]
      simp only [List.cons_append, countOccs, List.append_eq]
      have hl : leadsWith pat (c :: (t' ++ s)) = leadsWith pat (c :: t') := by
        have hle : pat.length ≤ (c :: t').length := by
          simp only [List.length_cons]
          omega
        have := leadsWith_append_of_le pat (c :: t') s hle
        simpa using this
      simp only [hl, ih]
      omega

lemma foldl_data_count (pat : List Char) (hp : 0 < pat.length) :
    ∀ (ps : List String) (acc : List Char),
      countOccs pat (ps.foldl (fun a s => a ++ s.data) acc) =
        countOccs pat acc + chunkCountAux pat (lastN (pat.length - 1) acc) ps := by
  intro ps
  induction ps with
  | nil => intro acc; simp [chunkCountAux]
  | cons s rest ih =>
    intro acc
    simp only [List.foldl_cons, chunkCountAux]
    rw [ih (acc ++ s.data)]
    rw [countOccs_append_window pat hp acc s.data]
    rw [lastN_append_lastN]
    omega

lemma joinParts_data (ps : List String) (A : String) :
    (ps.foldl (fun acc s => acc ++ s) A).data =
      ps.foldl (fun acc s => acc ++ s.data) A.data := by
  induction ps generalizing A with
  | nil => rfl
  | cons s rest ih =>
    simp only [List.foldl_cons]
    rw [ih (A ++ s)]
    rw [String.data_append]

/-- Occurrence counting over the generated source reduces to the
windowed fragment scan: the bridge that lets counts over the (large)
concatenated kernel text be evaluated fragment by fragment. -/
lemma countOccsStr_joinParts (pat : String) (hp : 0 < pat.data.length)
    (ps : List String) :
    countOccsStr pat (joinParts ps) = chunkCountAux pat.data [] ps := by
  unfold countOccsStr joinParts
  rw [joinParts_data ps ""]
  have h := foldl_data_count pat.data hp ps []
  simpa [lastN, countOccs] using h

-- Properties of the auto-binding counter model used by `BindArguments`.

lemma BindAll_counter (args : List KArg) :
    ∀ k : CLKernel,
      (CLKernel.BindAll k args).binding_counter =
        k.binding_counter + args.length := by
  induction args with
  | nil => intro k; rfl
  | cons a as ih =>
    intro k
    show (CLKernel.BindAll (CLKernel.SetAuto k a) as).binding_counter = _
    rw [ih (CLKernel.SetAuto k a)]
    simp [CLKernel.SetAuto]
    omega

lemma BindAll_bound_lt (args : List KArg) :
    ∀ (k : CLKernel) (i : Nat), i < k.binding_counter →
      (CLKernel.BindAll k args).bound i = k.bound i := by
  induction args with
  | nil => intro k i _; rfl
  | cons a as ih =>
    intro k i hi
    show (CLKernel.BindAll (CLKernel.SetAuto k a) as).bound i = _
    rw [ih (CLKernel.SetAuto k a) i (by simp [CLKernel.SetAuto]; omega)]
    simp only [CLKernel.SetAuto]
    rw [if_neg (by omega)]

lemma BindAll_bound_ge (args : List KArg) :
    ∀ (k : CLKernel) (i : Nat), k.binding_counter + args.length ≤ i →
      (CLKernel.BindAll k args).bound i = k.bound i := by
  induction args with
  | nil => intro k i _; rfl
  | cons a as ih =>
    intro k i hi
    simp only [List.length_cons] at hi
    show (CLKernel.BindAll (CLKernel.SetAuto k a) as).bound i = _
    rw [ih (CLKernel.SetAuto k a) i (by simp [CLKernel.SetAuto]; omega)]
    simp only [CLKernel.SetAuto]
    rw [if_neg (by omega)]

lemma BindAll_bound_get (args : List KArg) :
    ∀ (k : CLKernel) (j : Nat), j < args.length →
      (CLKernel.BindAll k args).bound (k.binding_counter + j) = args[j]? := by
  induction args with
  | nil => intro k j hj; simp at hj
  | cons a as ih =>
    intro k j hj
    show (CLKernel.BindAll (CLKernel.SetAuto k a) as).bound _ = _
    cases j with
    | zero =>
      rw [BindAll_bound_lt as (CLKernel.SetAuto k a) _
        (by simp [CLKernel.SetAuto])]
      simp [CLKernel.SetAuto]
    | succ j' =>
      have hstep : k.binding_counter + (j' + 1) =
          (CLKernel.SetAuto k a).binding_counter + j' := by
        simp [CLKernel.SetAuto]
        omega
      rw [hstep, ih (CLKernel.SetAuto k a) j'
        (by simp only [List.length_cons] at hj; omega)]
      simp

lemma BindAll_reset_bound (k : CLKernel) (args : List KArg) (i : Nat) :
    (CLKernel.BindAll k.ResetBindingCounter args).bound i =
      if i < args.length then args[i]? else k.bound i := by
  by_cases hi : i < args.length
  · rw [if_pos hi]
    have h := BindAll_bound_get args k.ResetBindingCounter i hi
    simpa [CLKernel.ResetBindingCounter] using h
  · rw [if_neg hi]
    have h := BindAll_bound_ge args k.ResetBindingCounter i
      (by simp [CLKernel.ResetBindingCounter]; omega)
    simpa [CLKernel.ResetBindingCounter] using h

-- Fold helpers for the linked-operation segments of the two lists.

lemma foldl_linked_map_fst (ops : List ElementwiseOperation)
    (acc : List (ParamSlot × KArg)) :
    (ops.foldl
      (fun a op => a ++ op.link_args.map (fun ar => (ParamSlot.linked_arg, ar)))
      acc).map Prod.fst =
      ops.foldl
        (fun a op => a ++ op.link_args.map (fun _ => ParamSlot.linked_arg))
        (acc.map Prod.fst) := by
  induction ops generalizing acc with
  | nil => rfl
  | cons op rest ih =>
    simp only [List.foldl_cons]
    rw [ih]
    congr 1
    simp [List.map_append, List.map_map, Function.comp]

lemma foldl_linked_filter (ops : List ElementwiseOperation)
    (acc : List (ParamSlot × KArg)) (slot : ParamSlot)
    (h : (ParamSlot.linked_arg == slot) = false) :
    (ops.foldl
      (fun a op => a ++ op.link_args.map (fun ar => (ParamSlot.linked_arg, ar)))
      acc).filter (fun pr => pr.1 == slot) =
      acc.filter (fun pr => pr.1 == slot) := by
  induction ops generalizing acc with
  | nil => rfl
  | cons op rest ih =>
    simp only [List.foldl_cons]
    rw [ih, List.filter_append]
    have hnil : (op.link_args.map
        (fun ar => (ParamSlot.linked_arg, ar))).filter (fun pr => pr.1 == slot) = [] := by
      rw [List.filter_map]
      have hcomp : ((fun pr => pr.1 == slot) ∘
          fun ar : KArg => ((ParamSlot.linked_arg, ar) : ParamSlot × KArg)) =
          fun _ : KArg => false := by
        funext ar
        simp [Function.comp, h]
      rw [hcomp]
      simp
    rw [hnil, List.append_nil]

/-- Claim C1: for every combination of the two booleans (window is 1x1;
batch-folding-with-stride holds), the conditional kernel parameters the
generator's entry-point signature declares (kernel-size+dilation iff not
1x1; batch size iff stride correction) are exactly the conditional
arguments `BindArguments` binds, in the same count and position of the
full positional order: source tensor, four weight slices, bias table,
fused-operation arguments, destination tensor, source size, destination
size, conditional kernel-size+dilation, conditional batch size, stride,
padding. -/
theorem claim_C1_parameter_list_contract :
    ∀ (t : ConvTexture) (src dst : TensorDims) (is1x1 : Bool),
      is1x1 = (t.kernel_size_.x == 1 && t.kernel_size_.y == 1) →
      KernelSignatureSlots t.definition_ t.stride_ is1x1 t.linked_operations_ =
        (t.BindSequence src dst).map Prod.fst := by
  intro t src dst is1x1 h
  subst h
  unfold KernelSignatureSlots ConvTexture.BindSequence
  by_cases h1 : (t.kernel_size_.x == 1 && t.kernel_size_.y == 1) <;>
    by_cases h2 : NeedStrideCorrection t.definition_ t.stride_ <;>
      simp [h1, h2, List.map_append, foldl_linked_map_fst]

/-- Witness for C1 at the 3x3 example controller state: the signature
slots with `is1x1 = false` coincide with the slots bound by
`BindArguments`. -/
theorem claim_C1_parameter_list_contract_witness :
    KernelSignatureSlots convT0.definition_ convT0.stride_ false
      convT0.linked_operations_ =
      (convT0.BindSequence dimsSrc0 dimsGrid).map Prod.fst :=
  claim_C1_parameter_list_contract convT0 dimsSrc0 dimsGrid false (by decide)

/-- Claim C2: for positive destination extents and block sizes, the grid
returned by `GetGridSize` covers each axis (grid times block reaches the
extent) with a shortfall of less than one block (one fewer invocation
would not cover it), so every output element falls in exactly one
invocation's tile; and the concrete example destination (W=17, H=9, D=5,
B=1) with block (4,4,2) yields grid (5,3,3). -/
theorem claim_C2_grid_coverage :
    ∀ (dst : TensorDims) (b : Nat3),
      0 < dst.width → 0 < dst.batch → 0 < dst.height → 0 < dst.depth →
      0 < b.x → 0 < b.y → 0 < b.z →
      (dst.width * dst.batch ≤ (ConvTexture.GetGridSize dst b).x * b.x ∧
       ((ConvTexture.GetGridSize dst b).x - 1) * b.x < dst.width * dst.batch ∧
       dst.height ≤ (ConvTexture.GetGridSize dst b).y * b.y ∧
       ((ConvTexture.GetGridSize dst b).y - 1) * b.y < dst.height ∧
       dst.depth ≤ (ConvTexture.GetGridSize dst b).z * b.z ∧
       ((ConvTexture.GetGridSize dst b).z - 1) * b.z < dst.depth ∧
       ConvTexture.GetGridSize dimsGrid ⟨4, 4, 2⟩ = ⟨5, 3, 3⟩) := by
  intro dst b hw hb hh hd hx hy hz
  have hwb : 0 < dst.width * dst.batch := Nat.mul_pos hw hb
  have gx : (ConvTexture.GetGridSize dst b).x =
      IntegralDivideRoundUp (dst.width * dst.batch) b.x := rfl
  have gy : (ConvTexture.GetGridSize dst b).y =
      IntegralDivideRoundUp dst.height b.y := rfl
  have gz : (ConvTexture.GetGridSize dst b).z =
      IntegralDivideRoundUp dst.depth b.z := rfl
  refine ⟨?_, ?_, ?_, ?_, ?_, ?_, ?_⟩
  · rw [gx]; exact ceil_div_mul_ge _ _ hwb hx
  · rw [gx]; exact ceil_div_pred_mul_lt _ _ hwb hx
  · rw [gy]; exact ceil_div_mul_ge _ _ hh hy
  · rw [gy]; exact ceil_div_pred_mul_lt _ _ hh hy
  · rw [gz]; exact ceil_div_mul_ge _ _ hd hz
  · rw [gz]; exact ceil_div_pred_mul_lt _ _ hd hz
  · decide

/-- Witness for C2 at the grid example: destination (17, 9, depth 5,
batch 1) with block (4, 4, 2) yields grid (5, 3, 3). -/
theorem claim_C2_grid_coverage_witness :
    ConvTexture.GetGridSize dimsGrid ⟨4, 4, 2⟩ = ⟨5, 3, 3⟩ :=
  (claim_C2_grid_coverage dimsGrid ⟨4, 4, 2⟩ (by decide) (by decide)
    (by decide) (by decide) (by decide) (by decide) (by decide)).2.2.2.2.2.2

/-- Claim C6: with batch size 1, the batch-folded source x-coordinate
formula reduces to the ordinary affine one: the pixel index becomes the
coordinate, the batch index becomes 0, and the two addressing regimes
agree. -/
theorem claim_C6_batch_one_equivalence :
    ∀ (c s p : Int), 0 ≤ c →
      (srcCoordXFolded c 1 s p = srcCoordXPlain c s p ∧
       pixelIndex c 1 = c ∧ batchIndex c 1 = 0) := by
  intro c s p _
  have h1 : c / 1 = c := by omega
  have h2 : c % 1 = 0 := by omega
  refine ⟨?_, ?_, ?_⟩
  · unfold srcCoordXFolded srcCoordXPlain pixelIndex batchIndex
    rw [h1, h2]
    ring
  · unfold pixelIndex; exact h1
  · unfold batchIndex; exact h2

/-- Witness for C6 at coordinate 7, stride 2, padding -1. -/
theorem claim_C6_batch_one_equivalence_witness :
    srcCoordXFolded 7 1 2 (-1) = srcCoordXPlain 7 2 (-1) ∧
      pixelIndex 7 1 = 7 ∧ batchIndex 7 1 = 0 :=
  claim_C6_batch_one_equivalence 7 2 (-1) (by decide)

/-- Claim C7: the generator is deterministic; two invocations on equal
inputs return byte-identical source text. -/
theorem claim_C7_generator_deterministic :
    ∀ (od od' : OperationDef) (bs bs' : Nat3) (i1 i1' a4 a4' : Bool)
      (st st' : Int2) (dev dev' : CLDevice)
      (lk lk' : List ElementwiseOperation),
      od = od' → bs = bs' → i1 = i1' → a4 = a4' → st = st' → dev = dev' →
      lk = lk' →
      GenerateConvCode od bs i1 a4 st dev lk =
        GenerateConvCode od' bs' i1' a4' st' dev' lk' := by
  intro od od' bs bs' i1 i1' a4 a4' st st' dev dev' lk lk'
  intro h1 h2 h3 h4 h5 h6 h7
  subst h1; subst h2; subst h3; subst h4; subst h5; subst h6; subst h7
  rfl

/-- Witness for C7: two invocations at the example configuration agree. -/
theorem claim_C7_generator_deterministic_witness :
    GenerateConvCode opDefExample ⟨2, 2, 1⟩ false false ⟨1, 1⟩ deviceNone [] =
      GenerateConvCode opDefExample ⟨2, 2, 1⟩ false false ⟨1, 1⟩ deviceNone [] :=
  claim_C7_generator_deterministic opDefExample opDefExample ⟨2, 2, 1⟩ ⟨2, 2, 1⟩
    false false false false ⟨1, 1⟩ ⟨1, 1⟩ deviceNone deviceNone [] []
    rfl rfl rfl rfl rfl rfl rfl

/-- Claim C3: the `adreno4xx_optimization` flag of `Compile` is true
exactly when stride is (1,1), stored padding is (0,0), the device is
Adreno 4xx, the primary storage type is TEXTURE_ARRAY and the precision
is F16; it is false whenever any single condition fails with the others
at qualifying values; and when it holds together with a 1x1 kernel the
generated epilogue reuses the precomputed source coordinates xc0/yc0 as
the destination write coordinates (and does not recompute them from the
global id). -/
theorem claim_C3_adreno4xx_gating :
    (∀ (s p : Int2) (d : CLDevice) (df : OperationDef),
        Adreno4xxOptimization s p d df = true ↔
          (s.x = 1 ∧ s.y = 1 ∧ p.x = 0 ∧ p.y = 0 ∧ d.is_adreno4xx = true ∧
           df.GetPrimaryStorageType = TensorStorageType.TEXTURE_ARRAY ∧
           df.precision = CalculationsPrecision.F16)) ∧
    Adreno4xxOptimization ⟨2, 1⟩ ⟨0, 0⟩ deviceAdreno4xx opDefF16TA = false ∧
    Adreno4xxOptimization ⟨1, 2⟩ ⟨0, 0⟩ deviceAdreno4xx opDefF16TA = false ∧
    Adreno4xxOptimization ⟨1, 1⟩ ⟨-1, 0⟩ deviceAdreno4xx opDefF16TA = false ∧
    Adreno4xxOptimization ⟨1, 1⟩ ⟨0, -1⟩ deviceAdreno4xx opDefF16TA = false ∧
    Adreno4xxOptimization ⟨1, 1⟩ ⟨0, 0⟩ deviceAdreno3xx opDefF16TA = false ∧
    Adreno4xxOptimization ⟨1, 1⟩ ⟨0, 0⟩ deviceAdreno4xx opDefF16T2D = false ∧
    Adreno4xxOptimization ⟨1, 1⟩ ⟨0, 0⟩ deviceAdreno4xx opDefF32TA = false ∧
    Adreno4xxOptimization ⟨1, 1⟩ ⟨0, 0⟩ deviceAdreno4xx opDefF16TA = true ∧
    countOccsStr patXcFromXc0 codeAdreno4xx1x1 = 1 ∧
    countOccsStr patYcFromYc0 codeAdreno4xx1x1 = 1 ∧
    countOccsStr patXcFromX codeAdreno4xx1x1 = 0 := by
  refine ⟨?_, by decide, by decide, by decide, by decide, by decide,
    by decide, by decide, by decide, ?_, ?_, ?_⟩
  · intro s p d df
    simp only [Adreno4xxOptimization, Bool.and_eq_true, beq_iff_eq]
    tauto
  · exact (countOccsStr_joinParts patXcFromXc0 (by decide)
      (GenerateConvParts opDefF16TA ⟨1, 1, 1⟩ true true ⟨1, 1⟩
        deviceAdreno4xx [])).trans (by rfl)
  · exact (countOccsStr_joinParts patYcFromYc0 (by decide)
      (GenerateConvParts opDefF16TA ⟨1, 1, 1⟩ true true ⟨1, 1⟩
        deviceAdreno4xx [])).trans (by rfl)
  · exact (countOccsStr_joinParts patXcFromX (by decide)
      (GenerateConvParts opDefF16TA ⟨1, 1, 1⟩ true true ⟨1, 1⟩
        deviceAdreno4xx [])).trans (by rfl)

/-- Claim C4: the vendor full-SIMD compiler flag is requested exactly
when the device is Adreno, the precision is F16, the device is the
Adreno 3xx sub-generation, and the kernel is 1x1; for F32 and F32_F16 it
is never requested, regardless of device and kernel size. -/
theorem claim_C4_fp16_simd_gating :
    (∀ (d : CLDevice) (p : CalculationsPrecision) (k : Bool),
        UseFP16SIMD d p k = true ↔
          (d.is_adreno = true ∧ p = CalculationsPrecision.F16 ∧
           d.is_adreno3xx = true ∧ k = true)) ∧
    (∀ (d : CLDevice) (k : Bool),
        UseFP16SIMD d CalculationsPrecision.F32 k = false) ∧
    (∀ (d : CLDevice) (k : Bool),
        UseFP16SIMD d CalculationsPrecision.F32_F16 k = false) := by
  refine ⟨?_, ?_, ?_⟩
  · intro d p k
    obtain ⟨a, b3, b4⟩ := d
    cases p <;> cases a <;> cases b3 <;> cases k <;> simp [UseFP16SIMD]
  · intro d k
    obtain ⟨a, b3, b4⟩ := d
    cases a <;> simp [UseFP16SIMD]
  · intro d k
    obtain ⟨a, b3, b4⟩ := d
    cases a <;> simp [UseFP16SIMD]

/-- Claim C5: stride correction is needed exactly when batch is folded
into width and the x-stride is not 1; in that regime the generator emits
the batch-folded x-addressing (pixel index, batch index, reconstructed
source coordinate) and not the affine form, while with no batch folding
or with stride 1 it emits the ordinary affine form and no BATCH_SIZE
parameter. -/
theorem claim_C5_stride_correction_addressing :
    (∀ (od : OperationDef) (st : Int2),
        NeedStrideCorrection od st = true ↔
          (od.batch_support = true ∧ st.x ≠ 1)) ∧
    countOccsStr patFolded0 codeStrideCorrected = 1 ∧
    countOccsStr patAffine0 codeStrideCorrected = 0 ∧
    countOccsStr patAffine0 codeStrideOne = 1 ∧
    countOccsStr patBatchSize codeStrideOne = 0 ∧
    countOccsStr patAffine0 codeNoBatch = 1 ∧
    countOccsStr patBatchSize codeNoBatch = 0 := by
  refine ⟨?_, ?_, ?_, ?_, ?_, ?_, ?_⟩
  · intro od st
    unfold NeedStrideCorrection
    simp [Bool.and_eq_true, bne_iff_ne]
  · exact (countOccsStr_joinParts patFolded0 (by decide)
      (GenerateConvParts opDefBatch ⟨1, 1, 1⟩ true false ⟨2, 2⟩
        deviceNone [])).trans (by rfl)
  · exact (countOccsStr_joinParts patAffine0 (by decide)
      (GenerateConvParts opDefBatch ⟨1, 1, 1⟩ true false ⟨2, 2⟩
        deviceNone [])).trans (by rfl)
  · exact (countOccsStr_joinParts patAffine0 (by decide)
      (GenerateConvParts opDefBatch ⟨1, 1, 1⟩ true false ⟨1, 1⟩
        deviceNone [])).trans (by rfl)
  · exact (countOccsStr_joinParts patBatchSize (by decide)
      (GenerateConvParts opDefBatch ⟨1, 1, 1⟩ true false ⟨1, 1⟩
        deviceNone [])).trans (by rfl)
  · exact (countOccsStr_joinParts patAffine0 (by decide)
      (GenerateConvParts opDefExample ⟨1, 1, 1⟩ true false ⟨2, 2⟩
        deviceNone [])).trans (by rfl)
  · exact (countOccsStr_joinParts patBatchSize (by decide)
      (GenerateConvParts opDefExample ⟨1, 1, 1⟩ true false ⟨2, 2⟩
        deviceNone [])).trans (by rfl)

/-- Claim C8: for the example scenario (3x3 window, stride (1,1),
prepended padding (1,1) stored as (-1,-1), dilation (1,1), block
(2,2,1), texture storage, single precision, no batch folding) the
constructor stores the stated geometry, and the generated source
contains the nested kernel-window loops over y then x (as one contiguous
occurrence of the y header, the per-row coordinate recomputations and
the x header), contains no BATCH_SIZE parameter, and the epilogue's
destination bounds check appears exactly once per tile element: 4
times. -/
theorem claim_C8_example_scenario :
    (ConvTexture.construct opDefExample attrExample ⟨2, 2, 1⟩
        kernel0).kernel_size_ = ⟨3, 3⟩ ∧
    (ConvTexture.construct opDefExample attrExample ⟨2, 2, 1⟩
        kernel0).stride_ = ⟨1, 1⟩ ∧
    (ConvTexture.construct opDefExample attrExample ⟨2, 2, 1⟩
        kernel0).padding_ = ⟨-1, -1⟩ ∧
    (ConvTexture.construct opDefExample attrExample ⟨2, 2, 1⟩
        kernel0).dilation_ = ⟨1, 1⟩ ∧
    countOccsStr patLoopY codeExample = 1 ∧
    countOccsStr patLoopX codeExample = 1 ∧
    countOccsStr patNestedLoops codeExample = 1 ∧
    countOccsStr patBatchSize codeExample = 0 ∧
    countOccsStr patBoundsCheck codeExample = 4 := by
  refine ⟨by decide, by decide, by decide, by decide, ?_, ?_, ?_, ?_, ?_⟩
  · exact (countOccsStr_joinParts patLoopY (by decide)
      (GenerateConvParts opDefExample ⟨2, 2, 1⟩ false false ⟨1, 1⟩
        deviceNone [])).trans (by rfl)
  · exact (countOccsStr_joinParts patLoopX (by decide)
      (GenerateConvParts opDefExample ⟨2, 2, 1⟩ false false ⟨1, 1⟩
        deviceNone [])).trans (by rfl)
  · exact (countOccsStr_joinParts patNestedLoops (by decide)
      (GenerateConvParts opDefExample ⟨2, 2, 1⟩ false false ⟨1, 1⟩
        deviceNone [])).trans (by rfl)
  · exact (countOccsStr_joinParts patBatchSize (by decide)
      (GenerateConvParts opDefExample ⟨2, 2, 1⟩ false false ⟨1, 1⟩
        deviceNone [])).trans (by rfl)
  · exact (countOccsStr_joinParts patBoundsCheck (by decide)
      (GenerateConvParts opDefExample ⟨2, 2, 1⟩ false false ⟨1, 1⟩
        deviceNone [])).trans (by rfl)

-- Idempotence of re-binding the full argument sequence after a counter
-- reset.

lemma bindAll_reset_idem (k : CLKernel) (args : List KArg) :
    CLKernel.BindAll
        (CLKernel.BindAll k.ResetBindingCounter args).ResetBindingCounter
        args =
      CLKernel.BindAll k.ResetBindingCounter args := by
  apply CLKernel.ext
  · rw [BindAll_counter, BindAll_counter]
    rfl
  · funext i
    rw [BindAll_reset_bound]
    by_cases hi : i < args.length
    · rw [if_pos hi, BindAll_reset_bound, if_pos hi]
    · rw [if_neg hi]

/-- Claim C9: `BindArguments` is idempotent: from any state and fixed
source/destination tensor dimensions, binding twice leaves the kernel's
bound-argument state (counter and bound positions) identical to binding
once, because the binding counter is reset at entry and the full
argument list is bound afresh; and it mutates nothing besides the
kernel's bound-argument state. -/
theorem claim_C9_bind_idempotent :
    ∀ (t : ConvTexture) (src dst : TensorDims),
      ConvTexture.BindArguments (ConvTexture.BindArguments t src dst) src dst =
        ConvTexture.BindArguments t src dst ∧
      (ConvTexture.BindArguments t src dst).definition_ = t.definition_ ∧
      (ConvTexture.BindArguments t src dst).linked_operations_ =
        t.linked_operations_ ∧
      (ConvTexture.BindArguments t src dst).kernel_size_ = t.kernel_size_ ∧
      (ConvTexture.BindArguments t src dst).stride_ = t.stride_ ∧
      (ConvTexture.BindArguments t src dst).padding_ = t.padding_ ∧
      (ConvTexture.BindArguments t src dst).dilation_ = t.dilation_ ∧
      (ConvTexture.BindArguments t src dst).block_size_ = t.block_size_ ∧
      (ConvTexture.BindArguments t src dst).work_group_size_ =
        t.work_group_size_ := by
  intro t src dst
  refine ⟨?_, rfl, rfl, rfl, rfl, rfl, rfl, rfl, rfl⟩
  apply ConvTexture.ext
  · rfl
  · rfl
  · rfl
  · rfl
  · rfl
  · rfl
  · rfl
  · show CLKernel.BindAll
        (ConvTexture.BindArguments t src dst).kernel_.ResetBindingCounter
        ((ConvTexture.BindSequence (ConvTexture.BindArguments t src dst)
            src dst).map Prod.snd) =
      (ConvTexture.BindArguments t src dst).kernel_
    have hseq : ConvTexture.BindSequence (ConvTexture.BindArguments t src dst)
        src dst = ConvTexture.BindSequence t src dst := rfl
    have hker : (ConvTexture.BindArguments t src dst).kernel_ =
        CLKernel.BindAll t.kernel_.ResetBindingCounter
          ((ConvTexture.BindSequence t src dst).map Prod.snd) := rfl
    rw [hseq, hker]
    exact bindAll_reset_idem t.kernel_ _
  · rfl

/-- Claim C10: at bind time the x-components of the dilation and padding
vectors are the stored values scaled by the source tensor's batch size
while the y-components and the kernel-size pair are passed unscaled:
in every `BindArguments` sequence, the padding slot holds
(padding.x * batch, padding.y), the stride slot holds the unscaled
stride, and when the window is not 1x1 the kernel-size slot holds the
unscaled kernel size and the dilation slot holds
(dilation.x * batch, dilation.y). -/
theorem claim_C10_bind_time_batch_scaling :
    ∀ (t : ConvTexture) (src dst : TensorDims),
      boundAtSlot t src dst ParamSlot.padding =
        [KArg.bytes2 ⟨t.padding_.x * (src.batch : Int), t.padding_.y⟩] ∧
      boundAtSlot t src dst ParamSlot.stride = [KArg.bytes2 t.stride_] ∧
      boundAtSlot t src dst ParamSlot.kernel_size =
        (if t.kernel_size_.x == 1 && t.kernel_size_.y == 1 then []
         else [KArg.bytes2 t.kernel_size_]) ∧
      boundAtSlot t src dst ParamSlot.dilation =
        (if t.kernel_size_.x == 1 && t.kernel_size_.y == 1 then []
         else [KArg.bytes2
           ⟨t.dilation_.x * (src.batch : Int), t.dilation_.y⟩]) := by
  intro t src dst
  unfold boundAtSlot ConvTexture.BindSequence
  refine ⟨?_, ?_, ?_, ?_⟩ <;>
    (by_cases h1 : (t.kernel_size_.x == 1 && t.kernel_size_.y == 1) <;>
      by_cases h2 : NeedStrideCorrection t.definition_ t.stride_ <;>
        simp [h1, h2, List.filter_append, foldl_linked_filter,
          List.map_append])
